import Mathlib

/-!
Verification development for the exline interpreter (src/src/lexer.rs,
src/src/parser.rs, src/src/interpreter.rs).  The data model and the
operations below are shallow embeddings of the Rust source: each Lean
definition mirrors one Rust item and keeps its name where Lean allows.
Rust HashMap tables are modelled as association lists with last-write-wins
insertion; i64 is modelled as Int (no claim exercises overflow); Rust
string byte indices are modelled as character indices, which agree on the
single-byte text involved in every claim.  A Rust panic (index out of
range, unreachable code) is modelled by the explicit result constructor
named crash; running out of fuel in the fueled evaluator is the
constructor nofuel and is never identified with any source behaviour.
-/

namespace Exline

/-- Mirrors enum Type in parser.rs: Int, String, Void, Custom(name). -/
inductive Ty where
  | int
  | string
  | void
  | custom (name : String)
deriving Repr, DecidableEq

/-- Mirrors struct Parameter in parser.rs. -/
structure Parameter where
  name : String
  param_type : Ty
deriving Repr, DecidableEq

/-- Mirrors struct ClassField in parser.rs. -/
structure ClassField where
  name : String
  field_type : Ty
deriving Repr, DecidableEq

/-- Mirrors enum BinaryOperator in parser.rs. -/
inductive BinOp where
  | add
  | subtract
  | multiply
  | divide
  | equal
deriving Repr, DecidableEq

mutual
/-- Mirrors enum Expression in parser.rs. -/
inductive Expression where
  | integer (n : Int)
  | string (s : String)
  | identifier (name : String)
  | binary (left : Expression) (operator : BinOp) (right : Expression)
  | functionCall (name : String) (arguments : List Expression)
  | methodCall (object : Expression) (method : String) (arguments : List Expression)
  | fieldAccess (object : Expression) (field : String)
  | objectCreation (class_name : String)
  | stringInterpolation (parts : List StringPart)

/-- Mirrors enum StringPart in parser.rs. -/
inductive StringPart where
  | literal (s : String)
  | expr (e : Expression)

/-- Mirrors enum Statement in parser.rs. -/
inductive Statement where
  | variableDeclaration (name : String) (var_type : Ty) (value : Expression)
  | functionDefinition (name : String) (parameters : List Parameter) (return_type : Ty) (body : List Statement)
  | ifStmt (condition : Expression) (then_branch : List Statement) (else_branch : Option (List Statement))
  | classDefinition (name : String) (implements : Option String) (fields : List ClassField) (methods : List Method)
  | interfaceDefinition (name : String) (methods : List InterfaceMethod)
  | assignment (target : Expression) (value : Expression)
  | expression (e : Expression)

/-- Mirrors struct Method in parser.rs (name, parameters, return type, body). -/
inductive Method where
  | mk (name : String) (parameters : List Parameter) (return_type : Ty) (body : List Statement)

/-- Mirrors struct InterfaceMethod in parser.rs. -/
inductive InterfaceMethod where
  | mk (name : String) (parameters : List Parameter) (return_type : Ty)
end

/-- Projection for the name field of Method. -/
def Method.name : Method → String
  | .mk n _ _ _ => n

/-- Projection for the parameters field of Method. -/
def Method.parameters : Method → List Parameter
  | .mk _ ps _ _ => ps

/-- Projection for the return type field of Method. -/
def Method.return_type : Method → Ty
  | .mk _ _ rt _ => rt

/-- Projection for the body field of Method. -/
def Method.body : Method → List Statement
  | .mk _ _ _ b => b

/-- Mirrors enum Value in interpreter.rs.  Object fields, a Rust HashMap,
are an association list here. -/
inductive Value where
  | integer (n : Int)
  | string (s : String)
  | function (parameters : List Parameter) (return_type : Ty) (body : List Statement)
  | object (class_name : String) (fields : List (String × Value))
  | void

/-- Mirrors Value::type_name in interpreter.rs. -/
def Value.type_name : Value → String
  | .integer _ => ("Int")
  | .string _ => ("String")
  | .function _ _ _ => ("Function")
  | .object _ _ => ("Object")
  | .void => ("Void")

/-- Mirrors Value::to_string in interpreter.rs. -/
def Value.to_string : Value → String
  | .integer n => toString n
  | .string s => s
  | .function _ _ _ => ("<function>")
  | .object cn _ => ("<" ++ cn ++ " object>")
  | .void => ("void")

/-- Association-list lookup, modelling HashMap::get. -/
def lookupS {α : Type} : List (String × α) → String → Option α
  | [], _ => none
  | (k, v) :: rest, key => if k = key then some v else lookupS rest key

/-- Association-list insert, modelling HashMap::insert (replace on an
existing key, add otherwise). -/
def insertS {α : Type} : List (String × α) → String → α → List (String × α)
  | [], key, v => [(key, v)]
  | (k, w) :: rest, key, v => if k = key then (key, v) :: rest else (k, w) :: insertS rest key v

/-- Mirrors struct ClassDefinition in interpreter.rs. -/
structure ClassDefinition where
  name : String
  fields : List ClassField
  methods : List Method
  implements : Option String

/-- Mirrors struct InterfaceDefinition in interpreter.rs. -/
structure InterfaceDefinition where
  name : String
  methods : List InterfaceMethod

/-- Mirrors struct Environment in interpreter.rs: four flat name tables. -/
structure Environment where
  vars : List (String × Value)
  functions : List (String × Value)
  classes : List (String × ClassDefinition)
  interfaces : List (String × InterfaceDefinition)

/-- Mirrors Environment::new: all tables empty except for the pre-registered
built-in print function (parameter value of type String, return type String,
empty body). -/
def Environment.new : Environment where
  vars := []
  functions := [(("print"), Value.function [⟨("value"), Ty.string⟩] Ty.string [])]
  classes := []
  interfaces := []

/-- Mirrors Environment::define_variable. -/
def Environment.define_variable (env : Environment) (name : String) (v : Value) : Environment :=
  { env with vars := insertS env.vars name v }

/-- Mirrors Environment::define_function. -/
def Environment.define_function (env : Environment) (name : String) (v : Value) : Environment :=
  { env with functions := insertS env.functions name v }

/-- Mirrors Environment::define_class. -/
def Environment.define_class (env : Environment) (name : String) (cd : ClassDefinition) : Environment :=
  { env with classes := insertS env.classes name cd }

/-- Mirrors Environment::define_interface. -/
def Environment.define_interface (env : Environment) (name : String) (idf : InterfaceDefinition) : Environment :=
  { env with interfaces := insertS env.interfaces name idf }

/-- Mirrors struct Interpreter in interpreter.rs, with the lines written by
println in the print built-in collected in an output log. -/
structure Interpreter where
  environment : Environment
  output : List String

/-- Mirrors Interpreter::new. -/
def Interpreter.new : Interpreter :=
  ⟨Environment.new, []⟩

/-- Rebinds one variable in the interpreter state (define_variable). -/
def define_variable (s : Interpreter) (name : String) (v : Value) : Interpreter :=
  { s with environment := s.environment.define_variable name v }

/-- Replaces the whole variable table, modelling the Rust assignment
self.environment.variables = old_vars that restores a call frame. -/
def set_variables (s : Interpreter) (vars : List (String × Value)) : Interpreter :=
  { s with environment := { s.environment with vars := vars } }

/-- Appends one rendered line to the output log, modelling println. -/
def push_output (s : Interpreter) (line : String) : Interpreter :=
  { s with output := s.output ++ [line] }

/-- Runtime errors.  Each constructor corresponds to one Err site in
interpreter.rs, keeping the data the Rust format string interpolates. -/
inductive RErr where
  | typeMismatch (expected : Ty) (got : String)
  | typeMismatchCustom (expected : String) (got : String)
  | argTypeMismatch (param : String) (expected : Ty) (got : String)
  | argTypeMismatchCustom (param : String) (expected : String) (got : String)
  | printArity
  | undefinedVariable (name : String)
  | undefinedFunction (name : String)
  | arityError (name : String) (expected : Nat) (got : Nat)
  | methodArityError (name : String) (expected : Nat) (got : Nat)
  | divisionByZero
  | addTypeError (l : String) (r : String)
  | subTypeError (l : String) (r : String)
  | mulTypeError (l : String) (r : String)
  | divTypeError (l : String) (r : String)
  | classNotFound (name : String)
  | methodNotFound (method : String) (className : String)
  | fieldNotFound (field : String)
  | notAnObjectMethod
  | notAnObjectField
  | unsupportedAssignment
deriving Repr, DecidableEq

/-- Outcome of one evaluator step: ok and err carry the interpreter state
exactly as the Rust Result does through the mutable self; crash models a
Rust panic; nofuel is exhaustion of the artificial fuel only. -/
inductive Res (α : Type) where
  | ok (a : α) (s : Interpreter)
  | err (e : RErr) (s : Interpreter)
  | crash (s : Interpreter)
  | nofuel

/-- Sequencing that mirrors the Rust question-mark operator: errors and
crashes propagate with the state they were raised in. -/
def Res.bind {α β : Type} : Res α → (α → Interpreter → Res β) → Res β
  | .ok a s, f => f a s
  | .err e s, _ => .err e s
  | .crash s, _ => .crash s
  | .nofuel, _ => .nofuel

/-- Mirrors Interpreter::add_values. -/
def add_values : Value → Value → Except RErr Value
  | .integer a, .integer b => .ok (.integer (a + b))
  | .string a, .string b => .ok (.string (a ++ b))
  | l, r => .error (.addTypeError (Value.type_name l) (Value.type_name r))

/-- Mirrors Interpreter::subtract_values. -/
def subtract_values : Value → Value → Except RErr Value
  | .integer a, .integer b => .ok (.integer (a - b))
  | l, r => .error (.subTypeError (Value.type_name l) (Value.type_name r))

/-- Mirrors Interpreter::multiply_values. -/
def multiply_values : Value → Value → Except RErr Value
  | .integer a, .integer b => .ok (.integer (a * b))
  | l, r => .error (.mulTypeError (Value.type_name l) (Value.type_name r))

/-- Mirrors Interpreter::divide_values: the zero check comes before the
division, so a zero divisor is an explicit error, never a crash.  Rust i64
division truncates toward zero, hence Int.tdiv. -/
def divide_values : Value → Value → Except RErr Value
  | .integer a, .integer b =>
      if b = 0 then .error .divisionByZero else .ok (.integer (Int.tdiv a b))
  | l, r => .error (.divTypeError (Value.type_name l) (Value.type_name r))

/-- Mirrors Interpreter::equal_values: structural equality for two Integers
or two Strings, every other pairing is false, and the result is encoded as
Integer 1 or Integer 0. -/
def equal_values : Value → Value → Except RErr Value
  | .integer a, .integer b => .ok (.integer (if a = b then 1 else 0))
  | .string a, .string b => .ok (.integer (if a = b then 1 else 0))
  | _, _ => .ok (.integer 0)

/-- Mirrors the type check in the VariableDeclaration arm of
execute_statement: none means compatible, some is the mismatch error. -/
def declTypeError : Ty → Value → Option RErr
  | .int, .integer _ => none
  | .string, .string _ => none
  | .void, .void => none
  | .custom cn, .object oc _ =>
      if cn ≠ oc then some (.typeMismatchCustom cn oc) else none
  | ty, v => some (.typeMismatch ty (Value.type_name v))

/-- Mirrors the argument type check in the FunctionCall arm of
evaluate_expression (the check method calls never perform). -/
def paramTypeError (pname : String) : Ty → Value → Option RErr
  | .int, .integer _ => none
  | .string, .string _ => none
  | .void, .void => none
  | .custom cn, .object oc _ =>
      if cn ≠ oc then some (.argTypeMismatchCustom pname cn oc) else none
  | ty, v => some (.argTypeMismatch pname ty (Value.type_name v))

/-- Mirrors the kind-appropriate zero value computed before a function or
method body runs and when object fields are initialised: Integer 0 for Int,
empty String for String, Void for Void and for every Custom type. -/
def default_value : Ty → Value
  | .int => .integer 0
  | .string => .string ("")
  | .void => .void
  | .custom _ => .void

/-- Mirrors the truthiness match in the If arm of execute_statement. -/
def truthy : Value → Bool
  | .integer n => n ≠ 0
  | .string s => s ≠ ""
  | .function _ _ _ => true
  | .object _ _ => true
  | .void => false

/-- Mirrors the field initialisation loop of the ObjectCreation arm. -/
def initFields : List ClassField → List (String × Value) → List (String × Value)
  | [], acc => acc
  | f :: rest, acc => initFields rest (insertS acc f.name (default_value f.field_type))

/-- Left brace character, written without a literal brace. -/
def lbrace : Char := Char.ofNat 123

/-- Right brace character, written without a literal brace. -/
def rbrace : Char := Char.ofNat 125

/-- True when the list starts with a left brace. -/
def firstIsLbrace : List Char → Bool
  | c :: _ => c = lbrace
  | [] => false

/-- Index of the first occurrence of the two-character marker opener
hash-lbrace, modelling str::find with that pattern. -/
def findMarker : List Char → Option Nat
  | [] => none
  | c :: rest =>
      if c = '#' && firstIsLbrace rest then some 0
      else (findMarker rest).map (· + 1)

/-- Index of the first right brace, modelling str::find with that char. -/
def findRbrace : List Char → Option Nat
  | [] => none
  | c :: rest =>
      if c = rbrace then some 0
      else (findRbrace rest).map (· + 1)

/-- Mirrors the String arm of evaluate_expression (interpreter.rs lines
246 to 264): at most the first marker is processed; the name between the
marker opener and the first right brace of the whole literal is looked up;
an unbound name leaves the literal unchanged.  The Rust slice from start+2
to end panics when start+2 exceeds end (a right brace before the marker),
modelled as none. -/
def interpString (vars : List (String × Value)) (s : String) : Option String :=
  let cs := s.toList
  match findMarker cs with
  | none => some s
  | some start =>
    match findRbrace cs with
    | none => some s
    | some e =>
      if start + 2 > e then none
      else
        let var_name := String.mk ((cs.drop (start + 2)).take (e - (start + 2)))
        match lookupS vars var_name with
        | none => some s
        | some v =>
            some (String.mk ((cs.take start) ++ (Value.to_string v).toList ++ cs.drop (e + 1)))

/-- First method whose name matches, mirroring the declaration-order scan
of the MethodCall arm. -/
def findMethod (methods : List Method) (m : String) : Option Method :=
  methods.find? (fun md => md.name == m)

mutual
/-- Mirrors Interpreter::evaluate_expression, fueled.  Every recursive call
runs at the predecessor fuel; no source behaviour depends on the fuel. -/
def evalExpr : Nat → Interpreter → Expression → Res Value
  | 0, _, _ => .nofuel
  | fuel + 1, s, e =>
    match e with
    | .integer n => .ok (.integer n) s
    | .string str =>
      match interpString s.environment.vars str with
      | some r => .ok (.string r) s
      | none => .crash s
    | .identifier name =>
      match lookupS s.environment.vars name with
      | some v => .ok v s
      | none => .err (.undefinedVariable name) s
    | .binary l op r =>
      (evalExpr fuel s l).bind fun lv s1 =>
      (evalExpr fuel s1 r).bind fun rv s2 =>
      match (match op with
             | .add => add_values lv rv
             | .subtract => subtract_values lv rv
             | .multiply => multiply_values lv rv
             | .divide => divide_values lv rv
             | .equal => equal_values lv rv) with
      | .ok v => .ok v s2
      | .error er => .err er s2
    | .functionCall name args =>
      if name = ("print") then
        match args with
        | [arg] =>
          (evalExpr fuel s arg).bind fun v s1 =>
            .ok (.string ("")) (push_output s1 (Value.to_string v))
        | _ => .err .printArity s
      else
        match lookupS s.environment.functions name with
        | none => .err (.undefinedFunction name) s
        | some fv =>
          match fv with
          | .function ps rt body =>
            if args.length ≠ ps.length then
              .err (.arityError name ps.length args.length) s
            else
              let old_vars := s.environment.vars
              match bindParams fuel s (ps.zip args) with
              | .ok _ s1 =>
                match execBlock fuel s1 body with
                | .ok carried s2 => .ok (carried.getD (default_value rt)) (set_variables s2 old_vars)
                | .err er s2 => .err er s2
                | .crash s2 => .crash s2
                | .nofuel => .nofuel
              | .err er s1 => .err er s1
              | .crash s1 => .crash s1
              | .nofuel => .nofuel
          | _ => .crash s
    | .stringInterpolation _ => .ok (.string ("")) s
    | .methodCall objE m args =>
      (evalExpr fuel s objE).bind fun ov s1 =>
        match ov with
        | .object cn flds =>
          match lookupS s1.environment.classes cn with
          | some cd =>
            match findMethod cd.methods m with
            | some mdef => callMethod fuel s1 cn flds m mdef args
            | none => .err (.methodNotFound m cn) s1
          | none => .err (.classNotFound cn) s1
        | _ => .err .notAnObjectMethod s1
    | .fieldAccess objE fieldName =>
      (evalExpr fuel s objE).bind fun ov s1 =>
        match ov with
        | .object _ flds =>
          match lookupS flds fieldName with
          | some fv => .ok fv s1
          | none => .err (.fieldNotFound fieldName) s1
        | _ => .err .notAnObjectField s1
    | .objectCreation cn =>
      match lookupS s.environment.classes cn with
      | some cd => .ok (.object cn (initFields cd.fields [])) s
      | none => .err (.classNotFound cn) s

/-- Mirrors the parameter binding loop of the FunctionCall arm: each
argument is evaluated in the current state (earlier bindings visible),
type checked against the declared parameter type, then bound; the first
failure propagates with the bindings made so far still in place. -/
def bindParams : Nat → Interpreter → List (Parameter × Expression) → Res Unit
  | 0, _, _ => .nofuel
  | _ + 1, s, [] => .ok () s
  | fuel + 1, s, (p, a) :: rest =>
    (evalExpr fuel s a).bind fun v s1 =>
      match paramTypeError p.name p.param_type v with
      | some er => .err er s1
      | none => bindParams fuel (define_variable s1 p.name v) rest

/-- Mirrors the parameter binding loop of the MethodCall arm: identical to
bindParams except that no type check of any kind is performed. -/
def bindNoCheck : Nat → Interpreter → List (Parameter × Expression) → Res Unit
  | 0, _, _ => .nofuel
  | _ + 1, s, [] => .ok () s
  | fuel + 1, s, (p, a) :: rest =>
    (evalExpr fuel s a).bind fun v s1 =>
      bindNoCheck fuel (define_variable s1 p.name v) rest

/-- Mirrors the body of the MethodCall arm after the method is found:
exact arity check, variable-table snapshot, this bound to a copy of the
receiver, unchecked argument binding, body run, restore on success only. -/
def callMethod : Nat → Interpreter → String → List (String × Value) → String → Method → List Expression → Res Value
  | 0, _, _, _, _, _, _ => .nofuel
  | fuel + 1, s, cn, flds, m, mdef, args =>
    if args.length ≠ mdef.parameters.length then
      .err (.methodArityError m mdef.parameters.length args.length) s
    else
      let old_vars := s.environment.vars
      let s1 := define_variable s ("this") (.object cn flds)
      match bindNoCheck fuel s1 (mdef.parameters.zip args) with
      | .ok _ s2 =>
        match execBlock fuel s2 mdef.body with
        | .ok carried s3 => .ok (carried.getD (default_value mdef.return_type)) (set_variables s3 old_vars)
        | .err er s3 => .err er s3
        | .crash s3 => .crash s3
        | .nofuel => .nofuel
      | .err er s2 => .err er s2
      | .crash s2 => .crash s2
      | .nofuel => .nofuel

/-- Mirrors Interpreter::execute_statement. -/
def execStmt : Nat → Interpreter → Statement → Res (Option Value)
  | 0, _, _ => .nofuel
  | fuel + 1, s, st =>
    match st with
    | .variableDeclaration name ty e =>
      (evalExpr fuel s e).bind fun v s1 =>
        match declTypeError ty v with
        | some er => .err er s1
        | none => .ok none (define_variable s1 name v)
    | .functionDefinition name ps rt body =>
      .ok none { s with environment := s.environment.define_function name (.function ps rt body) }
    | .ifStmt cond thenB elseB =>
      (evalExpr fuel s cond).bind fun cv s1 =>
        if truthy cv then execBlock fuel s1 thenB
        else
          match elseB with
          | some es => execBlock fuel s1 es
          | none => .ok none s1
    | .expression e =>
      (evalExpr fuel s e).bind fun v s1 => .ok (some v) s1
    | .classDefinition name impl fields methods =>
      .ok none { s with environment := s.environment.define_class name ⟨name, fields, methods, impl⟩ }
    | .interfaceDefinition name methods =>
      .ok none { s with environment := s.environment.define_interface name ⟨name, methods⟩ }
    | .assignment target e =>
      (evalExpr fuel s e).bind fun v s1 =>
        match target with
        | .identifier name => .ok none (define_variable s1 name v)
        | _ => .err .unsupportedAssignment s1

/-- Runs the statements of a block in order, stopping at the first carried
value, mirroring the body loops of calls and of the If arm. -/
def execBlock : Nat → Interpreter → List Statement → Res (Option Value)
  | 0, _, _ => .nofuel
  | _ + 1, s, [] => .ok none s
  | fuel + 1, s, st :: rest =>
    match execStmt fuel s st with
    | .ok (some rv) s1 => .ok (some rv) s1
    | .ok none s1 => execBlock fuel s1 rest
    | .err er s1 => .err er s1
    | .crash s1 => .crash s1
    | .nofuel => .nofuel
end

/-- Mirrors Interpreter::interpret: statements in order, carried values of
top-level statements discarded, first error aborts. -/
def interpret : Nat → Interpreter → List Statement → Res Unit
  | 0, _, _ => .nofuel
  | _ + 1, s, [] => .ok () s
  | fuel + 1, s, st :: rest =>
    match execStmt fuel s st with
    | .ok _ s1 => interpret fuel s1 rest
    | .err er s1 => .err er s1
    | .crash s1 => .crash s1
    | .nofuel => .nofuel

/-- Mirrors enum TokenType in lexer.rs.  The parser never reads token
positions, so tokens are bare token types here. -/
inductive TokenType where
  | integer (n : Int)
  | stringTok (s : String)
  | identifier (name : String)
  | intKw
  | stringKw
  | defKw
  | endKw
  | ifKw
  | elseKw
  | printKw
  | classKw
  | interfaceKw
  | implementsKw
  | newKw
  | voidKw
  | plus
  | minus
  | multiply
  | divide
  | assign
  | equal
  | leftParen
  | rightParen
  | arrow
  | colon
  | dot
  | newline
  | eof
  | interpolationStart
  | interpolationEnd
deriving Repr, DecidableEq

/-- True exactly on the end-of-input token. -/
def TokenType.isEof : TokenType → Bool
  | .eof => true
  | _ => false

/-- Distinct tag per constructor, modelling std::mem::discriminant. -/
def discrTag : TokenType → Nat
  | .integer _ => 0
  | .stringTok _ => 1
  | .identifier _ => 2
  | .intKw => 3
  | .stringKw => 4
  | .defKw => 5
  | .endKw => 6
  | .ifKw => 7
  | .elseKw => 8
  | .printKw => 9
  | .classKw => 10
  | .interfaceKw => 11
  | .implementsKw => 12
  | .newKw => 13
  | .voidKw => 14
  | .plus => 15
  | .minus => 16
  | .multiply => 17
  | .divide => 18
  | .assign => 19
  | .equal => 20
  | .leftParen => 21
  | .rightParen => 22
  | .arrow => 23
  | .colon => 24
  | .dot => 25
  | .newline => 26
  | .eof => 27
  | .interpolationStart => 28
  | .interpolationEnd => 29

/-- Mirrors Parser::check token comparison: the redundant Colon special
case of the source, then discriminant equality (payloads ignored). -/
def sameDiscr (a b : TokenType) : Bool :=
  match a, b with
  | .colon, .colon => true
  | _, _ => discrTag a == discrTag b

/-- Mirrors struct Parser in parser.rs: the token vector and a cursor. -/
structure ParserSt where
  tokens : List TokenType
  current : Nat
deriving Repr, DecidableEq

/-- Mirrors Parser::is_at_end.  When current is out of range the getD
branch yields eof, matching the short-circuited length test. -/
def ParserSt.isAtEnd (p : ParserSt) : Bool :=
  decide (p.tokens.length ≤ p.current) || (((p.tokens.get? p.current).getD TokenType.eof).isEof)

/-- Mirrors Parser::peek; none is the Rust index-out-of-range panic. -/
def peekT (p : ParserSt) : Option TokenType :=
  p.tokens.get? p.current

/-- Cursor movement of Parser::advance (no move at end of input). -/
def bump (p : ParserSt) : ParserSt :=
  if p.isAtEnd then p else { p with current := p.current + 1 }

/-- Mirrors Parser::advance, which moves unless at end and then reads the
token before the cursor; none is the Rust panic on index underflow or
overflow of that read. -/
def advanceTok (p : ParserSt) : Option (TokenType × ParserSt) :=
  let p1 := bump p
  if p1.current = 0 then none
  else
    match p1.tokens.get? (p1.current - 1) with
    | some t => some (t, p1)
    | none => none

/-- Mirrors Parser::check: false at end of input, else discriminant
comparison with the current token. -/
def checkTok (p : ParserSt) (tt : TokenType) : Bool :=
  if p.isAtEnd then false
  else
    match peekT p with
    | some cur => sameDiscr tt cur
    | none => false

/-- Parser errors, one constructor per distinct Err message string in
parser.rs. -/
inductive PErr where
  | expectedType
  | expectedIdentifier
  | expectedAssign
  | expectedDef
  | expectedFunctionName
  | expectedLeftParen
  | expectedParameterName
  | expectedColonAfterParameterName
  | expectedParameterType
  | expectedRightParen
  | expectedArrow
  | expectedReturnType
  | expectedEnd
  | expectedIf
  | expectedClass
  | expectedClassName
  | expectedInterface
  | expectedInterfaceName
  | expectedInterfaceNameAfterImplements
  | expectedFieldName
  | expectedMethodName
  | expectedColonBeforeReturnType
  | expectedExpression
  | expectedIdentifierAfterDot
  | newOnNonClassName
deriving Repr, DecidableEq

/-- Parse outcome: ok carries the updated parser state; err aborts the
whole parse as in the source; crash models a Rust panic; nofuel is fuel
exhaustion of the embedding only. -/
inductive PRes (α : Type) where
  | ok (a : α) (p : ParserSt)
  | err (e : PErr)
  | crash
  | nofuel

/-- Sequencing that mirrors the Rust question-mark operator in the parser. -/
def PRes.bind {α β : Type} : PRes α → (α → ParserSt → PRes β) → PRes β
  | .ok a p, f => f a p
  | .err e, _ => .err e
  | .crash, _ => .crash
  | .nofuel, _ => .nofuel

/-- Parser::advance wrapped as a parse outcome. -/
def advanceP (p : ParserSt) : PRes TokenType :=
  match advanceTok p with
  | some (t, p1) => .ok t p1
  | none => .crash

/-- Parser::peek wrapped as a parse outcome (state unchanged). -/
def peekP (p : ParserSt) : PRes TokenType :=
  match peekT p with
  | some t => .ok t p
  | none => .crash

/-- Mirrors Parser::consume. -/
def consumeTok (p : ParserSt) (tt : TokenType) (e : PErr) : PRes Unit :=
  if checkTok p tt then
    match advanceTok p with
    | some (_, p1) => .ok () p1
    | none => .crash
  else .err e

/-- Mirrors Parser::consume_newline_or_eof: advance over a newline, and be
lenient otherwise (never an error). -/
def consumeNewlineOrEof (p : ParserSt) : ParserSt :=
  if checkTok p .newline || checkTok p .eof then
    if ¬ p.isAtEnd then bump p else p
  else p

/-- Mirrors Parser::parse_type. -/
def parseTypeP (p : ParserSt) : PRes Ty :=
  if checkTok p .intKw then
    (advanceP p).bind fun _ p1 => .ok .int p1
  else if checkTok p .stringKw then
    (advanceP p).bind fun _ p1 => .ok .string p1
  else if checkTok p .voidKw then
    (advanceP p).bind fun _ p1 => .ok .void p1
  else
    (advanceP p).bind fun tok p1 =>
      match tok with
      | .identifier tn => .ok (.custom tn) p1
      | _ => .err .expectedType

/-- Mirrors the separator-skipping inner while loop of the parameter list
parsers: advance until the current token is an identifier, a right paren,
or input ends. -/
def skipSeparators : Nat → ParserSt → PRes Unit
  | 0, _ => .nofuel
  | fuel + 1, p =>
    if ¬ checkTok p (.identifier ("")) && ¬ checkTok p .rightParen && ¬ p.isAtEnd then
      match peekT p with
      | some (.identifier _) => .ok () p
      | some _ => skipSeparators fuel (bump p)
      | none => .crash
    else .ok () p

/-- Mirrors the inline parameter-type parse of function_definition, which
accepts only the Int and String keywords. -/
def fnParamType (p : ParserSt) : PRes Ty :=
  if checkTok p .intKw then
    (advanceP p).bind fun _ p1 => .ok .int p1
  else if checkTok p .stringKw then
    (advanceP p).bind fun _ p1 => .ok .string p1
  else .err .expectedParameterType

/-- Mirrors the parameter loop of Parser::function_definition. -/
def fnParamLoop : Nat → ParserSt → List Parameter → PRes (List Parameter)
  | 0, _, _ => .nofuel
  | fuel + 1, p, acc =>
    (advanceP p).bind fun tok p1 =>
      match tok with
      | .identifier pname =>
        (consumeTok p1 .colon .expectedColonAfterParameterName).bind fun _ p2 =>
        (fnParamType p2).bind fun pt p3 =>
        let acc1 := acc ++ [⟨pname, pt⟩]
        if checkTok p3 .rightParen then .ok acc1 p3
        else
          (skipSeparators fuel p3).bind fun _ p4 =>
          fnParamLoop fuel p4 acc1
      | _ => .err .expectedParameterName

/-- Mirrors the parameter loop of Parser::parse_method and
Parser::parse_interface_method, whose parameter types go through
parse_type. -/
def methodParamLoop : Nat → ParserSt → List Parameter → PRes (List Parameter)
  | 0, _, _ => .nofuel
  | fuel + 1, p, acc =>
    (advanceP p).bind fun tok p1 =>
      match tok with
      | .identifier pname =>
        (consumeTok p1 .colon .expectedColonAfterParameterName).bind fun _ p2 =>
        (parseTypeP p2).bind fun pt p3 =>
        let acc1 := acc ++ [⟨pname, pt⟩]
        if checkTok p3 .rightParen then .ok acc1 p3
        else
          (skipSeparators fuel p3).bind fun _ p4 =>
          methodParamLoop fuel p4 acc1
      | _ => .err .expectedParameterName

/-- Mirrors Parser::parse_field. -/
def parseFieldP (p : ParserSt) : PRes ClassField :=
  (parseTypeP p).bind fun ft p1 =>
  (advanceP p1).bind fun tok p2 =>
    match tok with
    | .identifier n => .ok ⟨n, ft⟩ (consumeNewlineOrEof p2)
    | _ => .err .expectedFieldName

/-- Mirrors Parser::parse_interface_method. -/
def parseInterfaceMethodP (fuel : Nat) (p : ParserSt) : PRes InterfaceMethod :=
  (consumeTok p .defKw .expectedDef).bind fun _ p1 =>
  (advanceP p1).bind fun tok p2 =>
    match tok with
    | .identifier name =>
      (consumeTok p2 .leftParen .expectedLeftParen).bind fun _ p3 =>
      (if checkTok p3 .rightParen then (.ok [] p3 : PRes (List Parameter))
       else methodParamLoop fuel p3 []).bind fun params p4 =>
      (consumeTok p4 .rightParen .expectedRightParen).bind fun _ p5 =>
      (consumeTok p5 .colon .expectedColonBeforeReturnType).bind fun _ p6 =>
      (parseTypeP p6).bind fun rt p7 =>
      .ok (.mk name params rt) (consumeNewlineOrEof p7)
    | _ => .err .expectedMethodName

/-- Mirrors the signature loop of Parser::interface_definition. -/
def interfaceMethodLoop : Nat → ParserSt → List InterfaceMethod → PRes (List InterfaceMethod)
  | 0, _, _ => .nofuel
  | fuel + 1, p, acc =>
    if ¬ checkTok p .endKw && ¬ p.isAtEnd then
      if checkTok p .newline then
        (advanceP p).bind fun _ p1 => interfaceMethodLoop fuel p1 acc
      else
        (parseInterfaceMethodP fuel p).bind fun im p1 => interfaceMethodLoop fuel p1 (acc ++ [im])
    else .ok acc p

/-- Mirrors Parser::interface_definition. -/
def interfaceDefinitionP (fuel : Nat) (p : ParserSt) : PRes Statement :=
  (consumeTok p .interfaceKw .expectedInterface).bind fun _ p1 =>
  (advanceP p1).bind fun tok p2 =>
    match tok with
    | .identifier n =>
      let p3 := consumeNewlineOrEof p2
      (interfaceMethodLoop fuel p3 []).bind fun methods p4 =>
      (consumeTok p4 .endKw .expectedEnd).bind fun _ p5 =>
      .ok (.interfaceDefinition n methods) (consumeNewlineOrEof p5)
    | _ => .err .expectedInterfaceName

/-- Mirrors Parser::parse_string_with_interpolation: both branches of the
source return the string expression unchanged. -/
def parseStringWithInterpolation (v : String) : Expression :=
  if (findMarker v.toList).isSome then .string v else .string v

mutual
/-- Mirrors Parser::statement: dispatch on the leading token.  Only the Int
and String type keywords route to variable_or_custom_declaration; every
other non-keyword line is parsed as an expression and possibly reread as
an assignment. -/
def statementP : Nat → ParserSt → PRes Statement
  | 0, _ => .nofuel
  | fuel + 1, p =>
    if checkTok p .intKw || checkTok p .stringKw then varOrCustomDecl fuel p
    else if checkTok p .defKw then functionDefinitionP fuel p
    else if checkTok p .ifKw then ifStatementP fuel p
    else if checkTok p .classKw then classDefinitionP fuel p
    else if checkTok p .interfaceKw then interfaceDefinitionP fuel p
    else
      (expressionP fuel p).bind fun expr p1 =>
      if checkTok p1 .assign then
        (advanceP p1).bind fun _ p2 =>
        (expressionP fuel p2).bind fun v p3 =>
        .ok (.assignment expr v) (consumeNewlineOrEof p3)
      else
        .ok (.expression expr) (consumeNewlineOrEof p1)

/-- Mirrors Parser::variable_or_custom_declaration, including the custom
type branch that statement dispatch never reaches. -/
def varOrCustomDecl : Nat → ParserSt → PRes Statement
  | 0, _ => .nofuel
  | fuel + 1, p =>
    ((if checkTok p .intKw then
        (advanceP p).bind fun _ p1 => .ok Ty.int p1
      else if checkTok p .stringKw then
        (advanceP p).bind fun _ p1 => .ok Ty.string p1
      else
        (peekP p).bind fun tok _ =>
          match tok with
          | .identifier tn => (advanceP p).bind fun _ p1 => .ok (Ty.custom tn) p1
          | _ => .err .expectedType) : PRes Ty).bind fun var_type p1 =>
    (advanceP p1).bind fun tok p2 =>
      match tok with
      | .identifier name =>
        if ¬ checkTok p2 .assign then .err .expectedAssign
        else
          (advanceP p2).bind fun _ p3 =>
          (expressionP fuel p3).bind fun v p4 =>
          .ok (.variableDeclaration name var_type v) (consumeNewlineOrEof p4)
      | _ => .err .expectedIdentifier

/-- Mirrors Parser::function_definition (return type restricted to the Int
and String keywords, as in the source). -/
def functionDefinitionP : Nat → ParserSt → PRes Statement
  | 0, _ => .nofuel
  | fuel + 1, p =>
    (consumeTok p .defKw .expectedDef).bind fun _ p1 =>
    (advanceP p1).bind fun tok p2 =>
      match tok with
      | .identifier name =>
        (consumeTok p2 .leftParen .expectedLeftParen).bind fun _ p3 =>
        (if checkTok p3 .rightParen then (.ok [] p3 : PRes (List Parameter))
         else fnParamLoop fuel p3 []).bind fun params p4 =>
        (consumeTok p4 .rightParen .expectedRightParen).bind fun _ p5 =>
        (consumeTok p5 .arrow .expectedArrow).bind fun _ p6 =>
        ((if checkTok p6 .intKw then
            (advanceP p6).bind fun _ p7 => .ok Ty.int p7
          else if checkTok p6 .stringKw then
            (advanceP p6).bind fun _ p7 => .ok Ty.string p7
          else .err .expectedReturnType) : PRes Ty).bind fun rt p7 =>
        let p8 := consumeNewlineOrEof p7
        (stmtListUntilEnd fuel p8 []).bind fun body p9 =>
        (consumeTok p9 .endKw .expectedEnd).bind fun _ p10 =>
        .ok (.functionDefinition name params rt body) (consumeNewlineOrEof p10)
      | _ => .err .expectedFunctionName

/-- Mirrors Parser::if_statement. -/
def ifStatementP : Nat → ParserSt → PRes Statement
  | 0, _ => .nofuel
  | fuel + 1, p =>
    (consumeTok p .ifKw .expectedIf).bind fun _ p1 =>
    (expressionP fuel p1).bind fun cond p2 =>
    let p3 := consumeNewlineOrEof p2
    (stmtListUntilElseOrEnd fuel p3 []).bind fun thenB p4 =>
    ((if checkTok p4 .elseKw then
        (advanceP p4).bind fun _ p5 =>
        let p6 := consumeNewlineOrEof p5
        (stmtListUntilEnd fuel p6 []).bind fun es p7 => .ok (some es) p7
      else .ok none p4) : PRes (Option (List Statement))).bind fun elseB p5 =>
    (consumeTok p5 .endKw .expectedEnd).bind fun _ p6 =>
    .ok (.ifStmt cond thenB elseB) (consumeNewlineOrEof p6)

/-- Mirrors Parser::class_definition. -/
def classDefinitionP : Nat → ParserSt → PRes Statement
  | 0, _ => .nofuel
  | fuel + 1, p =>
    (consumeTok p .classKw .expectedClass).bind fun _ p1 =>
    (advanceP p1).bind fun tok p2 =>
      match tok with
      | .identifier name =>
        ((if checkTok p2 .implementsKw then
            (advanceP p2).bind fun _ p3 =>
            (advanceP p3).bind fun tok2 p4 =>
              match tok2 with
              | .identifier iname => .ok (some iname) p4
              | _ => .err .expectedInterfaceNameAfterImplements
          else .ok none p2) : PRes (Option String)).bind fun implementsOpt p3 =>
        let p4 := consumeNewlineOrEof p3
        (classBodyLoop fuel p4 [] []).bind fun fm p5 =>
        (consumeTok p5 .endKw .expectedEnd).bind fun _ p6 =>
        .ok (.classDefinition name implementsOpt fm.1 fm.2) (consumeNewlineOrEof p6)
      | _ => .err .expectedClassName

/-- Mirrors the member loop of Parser::class_definition: def starts a
method, anything else a field. -/
def classBodyLoop : Nat → ParserSt → List ClassField → List Method → PRes (List ClassField × List Method)
  | 0, _, _, _ => .nofuel
  | fuel + 1, p, fields, methods =>
    if ¬ checkTok p .endKw && ¬ p.isAtEnd then
      if checkTok p .newline then
        (advanceP p).bind fun _ p1 => classBodyLoop fuel p1 fields methods
      else if checkTok p .defKw then
        (parseMethodP fuel p).bind fun md p1 => classBodyLoop fuel p1 fields (methods ++ [md])
      else
        (parseFieldP p).bind fun fd p1 => classBodyLoop fuel p1 (fields ++ [fd]) methods
    else .ok (fields, methods) p

/-- Mirrors Parser::parse_method. -/
def parseMethodP : Nat → ParserSt → PRes Method
  | 0, _ => .nofuel
  | fuel + 1, p =>
    (consumeTok p .defKw .expectedDef).bind fun _ p1 =>
    (advanceP p1).bind fun tok p2 =>
      match tok with
      | .identifier name =>
        (consumeTok p2 .leftParen .expectedLeftParen).bind fun _ p3 =>
        (if checkTok p3 .rightParen then (.ok [] p3 : PRes (List Parameter))
         else methodParamLoop fuel p3 []).bind fun params p4 =>
        (consumeTok p4 .rightParen .expectedRightParen).bind fun _ p5 =>
        (consumeTok p5 .colon .expectedColonBeforeReturnType).bind fun _ p6 =>
        (parseTypeP p6).bind fun rt p7 =>
        let p8 := consumeNewlineOrEof p7
        (stmtListUntilEnd fuel p8 []).bind fun body p9 =>
        (consumeTok p9 .endKw .expectedEnd).bind fun _ p10 =>
        .ok (.mk name params rt body) (consumeNewlineOrEof p10)
      | _ => .err .expectedMethodName

/-- Statement loop of bodies terminated by end (function bodies, method
bodies, else branches), skipping newlines. -/
def stmtListUntilEnd : Nat → ParserSt → List Statement → PRes (List Statement)
  | 0, _, _ => .nofuel
  | fuel + 1, p, acc =>
    if ¬ checkTok p .endKw && ¬ p.isAtEnd then
      if checkTok p .newline then
        (advanceP p).bind fun _ p1 => stmtListUntilEnd fuel p1 acc
      else
        (statementP fuel p).bind fun st p1 => stmtListUntilEnd fuel p1 (acc ++ [st])
    else .ok acc p

/-- Statement loop of an if-then branch, stopping at else or end. -/
def stmtListUntilElseOrEnd : Nat → ParserSt → List Statement → PRes (List Statement)
  | 0, _, _ => .nofuel
  | fuel + 1, p, acc =>
    if ¬ checkTok p .elseKw && ¬ checkTok p .endKw && ¬ p.isAtEnd then
      if checkTok p .newline then
        (advanceP p).bind fun _ p1 => stmtListUntilElseOrEnd fuel p1 acc
      else
        (statementP fuel p).bind fun st p1 => stmtListUntilElseOrEnd fuel p1 (acc ++ [st])
    else .ok acc p

/-- Mirrors Parser::expression, which delegates to equality. -/
def expressionP : Nat → ParserSt → PRes Expression
  | 0, _ => .nofuel
  | fuel + 1, p => equalityP fuel p

/-- Mirrors Parser::equality. -/
def equalityP : Nat → ParserSt → PRes Expression
  | 0, _ => .nofuel
  | fuel + 1, p =>
    (additionP fuel p).bind fun e p1 => equalityLoop fuel e p1

/-- The while loop of Parser::equality. -/
def equalityLoop : Nat → Expression → ParserSt → PRes Expression
  | 0, _, _ => .nofuel
  | fuel + 1, e, p =>
    if checkTok p .equal then
      (advanceP p).bind fun _ p1 =>
      (additionP fuel p1).bind fun r p2 =>
      equalityLoop fuel (.binary e .equal r) p2
    else .ok e p

/-- Mirrors Parser::addition. -/
def additionP : Nat → ParserSt → PRes Expression
  | 0, _ => .nofuel
  | fuel + 1, p =>
    (multiplicationP fuel p).bind fun e p1 => additionLoop fuel e p1

/-- The while loop of Parser::addition; the catch-all of the operator
match is the unreachable arm of the source. -/
def additionLoop : Nat → Expression → ParserSt → PRes Expression
  | 0, _, _ => .nofuel
  | fuel + 1, e, p =>
    if checkTok p .plus || checkTok p .minus then
      (advanceP p).bind fun tok p1 =>
      ((match tok with
        | .plus => .ok BinOp.add p1
        | .minus => .ok BinOp.subtract p1
        | _ => .crash) : PRes BinOp).bind fun op p2 =>
      (multiplicationP fuel p2).bind fun r p3 =>
      additionLoop fuel (.binary e op r) p3
    else .ok e p

/-- Mirrors Parser::multiplication. -/
def multiplicationP : Nat → ParserSt → PRes Expression
  | 0, _ => .nofuel
  | fuel + 1, p =>
    (primaryP fuel p).bind fun e p1 => multiplicationLoop fuel e p1

/-- The while loop of Parser::multiplication. -/
def multiplicationLoop : Nat → Expression → ParserSt → PRes Expression
  | 0, _, _ => .nofuel
  | fuel + 1, e, p =>
    if checkTok p .multiply || checkTok p .divide then
      (advanceP p).bind fun tok p1 =>
      ((match tok with
        | .multiply => .ok BinOp.multiply p1
        | .divide => .ok BinOp.divide p1
        | _ => .crash) : PRes BinOp).bind fun op p2 =>
      (primaryP fuel p2).bind fun r p3 =>
      multiplicationLoop fuel (.binary e op r) p3
    else .ok e p

/-- Mirrors Parser::primary: one token is consumed and dispatched, then
the postfix dot chain is folded on top. -/
def primaryP : Nat → ParserSt → PRes Expression
  | 0, _ => .nofuel
  | fuel + 1, p =>
    (advanceP p).bind fun tok p1 =>
    ((match tok with
      | .integer n => .ok (Expression.integer n) p1
      | .stringTok v => .ok (parseStringWithInterpolation v) p1
      | .identifier name =>
        if checkTok p1 .leftParen then
          (advanceP p1).bind fun _ p2 =>
          (if checkTok p2 .rightParen then (.ok [] p2 : PRes (List Expression))
           else argLoop fuel p2 []).bind fun args p3 =>
          (consumeTok p3 .rightParen .expectedRightParen).bind fun _ p4 =>
          .ok (.functionCall name args) p4
        else .ok (.identifier name) p1
      | .leftParen =>
        (expressionP fuel p1).bind fun e p2 =>
        (consumeTok p2 .rightParen .expectedRightParen).bind fun _ p3 =>
        .ok e p3
      | _ => .err .expectedExpression) : PRes Expression).bind fun e p2 =>
    dotLoop fuel e p2

/-- The comma-less argument loop of calls: sub-expressions until a right
paren is current. -/
def argLoop : Nat → ParserSt → List Expression → PRes (List Expression)
  | 0, _, _ => .nofuel
  | fuel + 1, p, acc =>
    (expressionP fuel p).bind fun a p1 =>
    if checkTok p1 .rightParen then .ok (acc ++ [a]) p1
    else argLoop fuel p1 (acc ++ [a])

/-- The postfix dot chain of Parser::primary: field access, method call,
or object creation when the called name is exactly new on a bare
identifier. -/
def dotLoop : Nat → Expression → ParserSt → PRes Expression
  | 0, _, _ => .nofuel
  | fuel + 1, e, p =>
    if checkTok p .dot then
      (advanceP p).bind fun _ p1 =>
      (peekP p1).bind fun tok _ =>
        match tok with
        | .identifier name =>
          let p2 := bump p1
          if checkTok p2 .leftParen then
            (advanceP p2).bind fun _ p3 =>
            (if checkTok p3 .rightParen then (.ok [] p3 : PRes (List Expression))
             else argLoop fuel p3 []).bind fun args p4 =>
            (consumeTok p4 .rightParen .expectedRightParen).bind fun _ p5 =>
            if name = ("new") then
              match e with
              | .identifier cn => dotLoop fuel (.objectCreation cn) p5
              | _ => .err .newOnNonClassName
            else dotLoop fuel (.methodCall e name args) p5
          else dotLoop fuel (.fieldAccess e name) p2
        | _ => .err .expectedIdentifierAfterDot
    else .ok e p
end

/-- The statement loop of Parser::parse: skip top-level newlines, collect
statements until end of input. -/
def parseProgramLoop : Nat → ParserSt → List Statement → PRes (List Statement)
  | 0, _, _ => .nofuel
  | fuel + 1, p, acc =>
    if ¬ p.isAtEnd then
      if checkTok p .newline then
        (advanceP p).bind fun _ p1 => parseProgramLoop fuel p1 acc
      else
        (statementP fuel p).bind fun st p1 => parseProgramLoop fuel p1 (acc ++ [st])
    else .ok acc p

/-- Mirrors Parser::parse on a fresh parser over the given tokens. -/
def parse (fuel : Nat) (tokens : List TokenType) : PRes (List Statement) :=
  parseProgramLoop fuel ⟨tokens, 0⟩ []

/-! Claim-specific concrete programs and states. -/

/-- Function f with one Int parameter x whose body divides ten by zero,
for exercising the error path of a call. -/
def c1Fun : Value := .function [⟨("x"), .int⟩] .int [.expression (.binary (.integer 10) .divide (.integer 0))]

/-- Fresh interpreter with f registered and no variables bound. -/
def c1State : Interpreter :=
  { environment := { Environment.new with functions := insertS Environment.new.functions ("f") c1Fun }, output := [] }

/-- String literal holding rbrace, hash, lbrace, x, rbrace: a right brace
appears before the interpolation marker. -/
def c2Lit : String := String.mk [rbrace, '#', lbrace, 'x', rbrace]

/-- Function f with one Int parameter named r whose body divides ten by
zero, matching the name of a declaration that calls it. -/
def c6Fun : Value := .function [⟨("r"), .int⟩] .int [.expression (.binary (.integer 10) .divide (.integer 0))]

/-- Fresh interpreter with c6Fun registered as f. -/
def c6State : Interpreter :=
  { environment := { Environment.new with functions := insertS Environment.new.functions ("f") c6Fun }, output := [] }

/-- True exactly on typed VariableDeclaration statements. -/
def isVarDeclStmt : Statement → Bool
  | .variableDeclaration _ _ _ => true
  | _ => false

/-- True when no statement of the list is a typed VariableDeclaration. -/
def noVarDecl (l : List Statement) : Bool :=
  l.all (fun st => ! isVarDeclStmt st)

/-- Token sequence of the line Person p = Person.new() as the lexer emits
it: capitalized names are plain identifier tokens. -/
def c4Toks : List TokenType :=
  [.identifier ("Person"), .identifier ("p"), .assign, .identifier ("Person"), .dot, .identifier ("new"), .leftParen, .rightParen, .eof]

/-- Parser state over the tokens of the line p = 1. -/
def pAsg : ParserSt := ⟨[.identifier ("p"), .assign, .integer 1, .eof], 0⟩

/-- Parser state over the tokens of the line Int n1 = 1. -/
def pIntDecl : ParserSt := ⟨[.intKw, .identifier ("n1"), .assign, .integer 1, .eof], 0⟩

/-- Parser state over the tokens of the line String n1 = 1. -/
def pStrDecl : ParserSt := ⟨[.stringKw, .identifier ("n1"), .assign, .integer 1, .eof], 0⟩

/-- Function g without parameters, Int return type and empty body. -/
def c7Fun : Value := .function [] .int []

/-- Fresh interpreter with g registered. -/
def c7State : Interpreter :=
  { environment := { Environment.new with functions := insertS Environment.new.functions ("g") c7Fun }, output := [] }

/-- A user-defined function value registered under the name print. -/
def userPrintFun : Value := .function [⟨("v"), Ty.int⟩] .int [.expression (.integer 42)]

/-- Interpreter state after a def print definition ran: the functions
table maps print to the user function. -/
def c9State : Interpreter :=
  { environment := { Environment.new with functions := insertS Environment.new.functions ("print") userPrintFun }, output := [] }

/-- Method inc with one Int parameter x and empty body. -/
def c8Method : Method := .mk ("inc") [⟨("x"), Ty.int⟩] .int []

/-! Helper lemmas. -/

/-- Inversion of successful parse sequencing. -/
theorem PRes.bind_eq_ok {α β : Type} {x : PRes α} {f : α → ParserSt → PRes β} {b : β} {pb : ParserSt}
    (h : x.bind f = .ok b pb) : ∃ a pa, x = .ok a pa ∧ f a pa = .ok b pb := by
  cases x with
  | ok a pa => exact ⟨a, pa, rfl, h⟩
  | err e => simp [PRes.bind] at h
  | crash => simp [PRes.bind] at h
  | nofuel => simp [PRes.bind] at h

/-- The unchecked method-argument binding depends only on the parameter
names, never on the declared parameter types. -/
theorem bindNoCheck_names (fuel : Nat) : ∀ (s : Interpreter) (ps qs : List Parameter) (args : List Expression),
    ps.map Parameter.name = qs.map Parameter.name →
    bindNoCheck fuel s (ps.zip args) = bindNoCheck fuel s (qs.zip args) := by
  induction fuel with
  | zero => intro s ps qs args _; rfl
  | succ fuel ih =>
    intro s ps qs args hnames
    cases ps with
    | nil => cases qs with
      | nil => rfl
      | cons q qs2 => simp at hnames
    | cons p ps2 =>
      cases qs with
      | nil => simp at hnames
      | cons q qs2 =>
        simp at hnames
        cases args with
        | nil => rfl
        | cons a args2 =>
          simp only [List.zip_cons_cons, bindNoCheck]
          cases hE : evalExpr fuel s a <;> simp [Res.bind]
          rename_i v s1
          rw [hnames.1]
          exact ih (define_variable s1 q.name v) ps2 qs2 args2 hnames.2

/-! Claim theorems. -/

/-- C1: the claim says the variable table is restored to its pre-call
snapshot on every exit path of a call, including error exits.  The code
restores only on the success path: calling f(5), whose body errors with
division by zero, propagates the error while the leaked parameter binding
x = 5 stays in the table, although it was empty before the call. -/
theorem call_frame_not_restored_on_error :
    evalExpr 5 c1State (.functionCall ("f") [.integer 5]) = .err .divisionByZero (set_variables c1State [(("x"), Value.integer 5)])
    ∧ c1State.environment.vars = []
    ∧ ([(("x"), Value.integer 5)] : List (String × Value)) ≠ [] :=
  ⟨rfl, rfl, by simp⟩

/-- C2: the claim says every string literal evaluates to a String with at
most the first marker replaced and no error, even when a right brace
appears before the marker.  On the literal rbrace-hash-lbrace-x-rbrace the
source slices from start+2 = 3 to the first right brace at index 0, a
panicking slice range, so evaluation crashes instead of returning. -/
theorem string_interpolation_crash_on_early_rbrace :
    evalExpr 1 Interpreter.new (.string c2Lit) = .crash Interpreter.new
    ∧ interpString [] c2Lit = none :=
  ⟨rfl, rfl⟩

/-- C3 counterexample: the claim says equal kind and equal value always
yield Integer 1 for every kind including Void, but Equal on two Void
operands yields Integer 0. -/
theorem equal_values_void_not_one :
    equal_values Value.void Value.void = Except.ok (Value.integer 0)
    ∧ Value.integer 0 ≠ Value.integer 1 :=
  ⟨rfl, by intro h; injection h with h2; exact absurd h2 (by decide)⟩

/-- C3 amended: Equal always yields Integer 1 or Integer 0, and yields
Integer 1 exactly for two Integers or two Strings with equal payloads;
every other pairing, including equal Function, Object and Void operands,
yields Integer 0. -/
theorem equal_values_characterisation (l r : Value) :
    (equal_values l r = .ok (.integer 1) ∨ equal_values l r = .ok (.integer 0))
    ∧ (equal_values l r = .ok (.integer 1) ↔
        ((∃ n : Int, l = .integer n ∧ r = .integer n) ∨ (∃ t : String, l = .string t ∧ r = .string t))) := by
  cases l <;> cases r <;> simp [equal_values] <;>
    first
    | (rename_i a b
       by_cases h : a = b
       · simp [h]
       · simp [h]
         exact fun hba => h hba.symm)
    | skip

/-- C3 amended witness: two equal Integers yield Integer 1. -/
theorem equal_values_characterisation_witness :
    equal_values (Value.integer 4) (Value.integer 4) = .ok (.integer 1) :=
  (equal_values_characterisation (Value.integer 4) (Value.integer 4)).2.mpr (Or.inl ⟨4, rfl, rfl⟩)

/-- C4 counterexample: the claim says a leading capitalized identifier
starts a typed declaration, so Person p = Person.new() would parse as one
VariableDeclaration; the parser instead yields an expression statement
for Person followed by an assignment to p, and no statement of the parse
is a VariableDeclaration. -/
theorem capitalized_identifier_not_a_declaration :
    parse 30 c4Toks = .ok [Statement.expression (.identifier ("Person")), Statement.assignment (.identifier ("p")) (.objectCreation ("Person"))] ⟨c4Toks, 8⟩
    ∧ noVarDecl [Statement.expression (.identifier ("Person")), Statement.assignment (.identifier ("p")) (.objectCreation ("Person"))] = true :=
  ⟨rfl, rfl⟩

/-- C4 amended: only the Int and String type keywords start a typed
declaration.  When the current token is an identifier, a successful
statement parse is an assignment or an expression statement, never a
declaration; when it is the Int or String keyword, dispatch goes to
variable_or_custom_declaration, whose successes are always typed
VariableDeclaration statements. -/
theorem statement_dispatch_amended (fuel : Nat) (p : ParserSt) (n : String) (st : Statement) (p1 : ParserSt) :
    (peekT p = some (.identifier n) → statementP (fuel + 1) p = .ok st p1 →
       (∃ t v, st = .assignment t v) ∨ (∃ e, st = .expression e))
    ∧ (peekT p = some .intKw → statementP (fuel + 1) p = varOrCustomDecl fuel p)
    ∧ (peekT p = some .stringKw → statementP (fuel + 1) p = varOrCustomDecl fuel p)
    ∧ (varOrCustomDecl fuel p = .ok st p1 → ∃ nm t v, st = .variableDeclaration nm t v) := by
  refine ⟨?_, ?_, ?_, ?_⟩
  · intro hpk hok
    have h1 : checkTok p .intKw = false := by
      unfold checkTok
      cases hA : p.isAtEnd <;> simp [peekT] at hpk ⊢ <;> simp [hpk, sameDiscr, discrTag]
    have h2 : checkTok p .stringKw = false := by
      unfold checkTok
      cases hA : p.isAtEnd <;> simp [peekT] at hpk ⊢ <;> simp [hpk, sameDiscr, discrTag]
    have h3 : checkTok p .defKw = false := by
      unfold checkTok
      cases hA : p.isAtEnd <;> simp [peekT] at hpk ⊢ <;> simp [hpk, sameDiscr, discrTag]
    have h4 : checkTok p .ifKw = false := by
      unfold checkTok
      cases hA : p.isAtEnd <;> simp [peekT] at hpk ⊢ <;> simp [hpk, sameDiscr, discrTag]
    have h5 : checkTok p .classKw = false := by
      unfold checkTok
      cases hA : p.isAtEnd <;> simp [peekT] at hpk ⊢ <;> simp [hpk, sameDiscr, discrTag]
    have h6 : checkTok p .interfaceKw = false := by
      unfold checkTok
      cases hA : p.isAtEnd <;> simp [peekT] at hpk ⊢ <;> simp [hpk, sameDiscr, discrTag]
    rw [statementP] at hok
    simp only [h1, h2, h3, h4, h5, h6, Bool.or_self, Bool.false_eq_true, if_false] at hok
    obtain ⟨expr, q, hE, hrest⟩ := PRes.bind_eq_ok hok
    by_cases hA : checkTok q .assign
    · rw [if_pos hA] at hrest
      obtain ⟨t2, q2, ht2, hrest2⟩ := PRes.bind_eq_ok hrest
      obtain ⟨v, q3, hv, hrest3⟩ := PRes.bind_eq_ok hrest2
      cases hrest3
      exact Or.inl ⟨expr, v, rfl⟩
    · rw [if_neg hA] at hrest
      cases hrest
      exact Or.inr ⟨expr, rfl⟩
  · intro hpk
    have hpk2 : List.get? p.tokens p.current = some TokenType.intKw := by simpa [peekT] using hpk
    have hlt : p.current < p.tokens.length := (List.get?_eq_some.mp hpk2).1
    have hpk3 : p.tokens[p.current]? = some TokenType.intKw := by
      simpa [List.get?_eq_getElem?] using hpk2
    have hend : p.isAtEnd = false := by
      simp [ParserSt.isAtEnd, hpk3, TokenType.isEof]
      omega
    have hck : checkTok p .intKw = true := by
      unfold checkTok
      simp [hend, peekT, List.get?_eq_getElem?, hpk3, sameDiscr, discrTag]
    rw [statementP]
    simp [hck]
  · intro hpk
    have hpk2 : List.get? p.tokens p.current = some TokenType.stringKw := by simpa [peekT] using hpk
    have hlt : p.current < p.tokens.length := (List.get?_eq_some.mp hpk2).1
    have hpk3 : p.tokens[p.current]? = some TokenType.stringKw := by
      simpa [List.get?_eq_getElem?] using hpk2
    have hend : p.isAtEnd = false := by
      simp [ParserSt.isAtEnd, hpk3, TokenType.isEof]
      omega
    have hck : checkTok p .stringKw = true := by
      unfold checkTok
      simp [hend, peekT, List.get?_eq_getElem?, hpk3, sameDiscr, discrTag]
    rw [statementP]
    simp [hck]
  · intro hok
    cases fuel with
    | zero => simp [varOrCustomDecl] at hok
    | succ fuel =>
      rw [varOrCustomDecl] at hok
      obtain ⟨ty, pa, hty, hrest⟩ := PRes.bind_eq_ok hok
      obtain ⟨tok, pb, htok, hrest2⟩ := PRes.bind_eq_ok hrest
      cases tok
      case identifier nm =>
        by_cases hA : checkTok pb .assign
        · simp only [hA, not_true_eq_false, if_false] at hrest2
          obtain ⟨t2, pc, ht2, hrest3⟩ := PRes.bind_eq_ok hrest2
          obtain ⟨v, pd, hv, hrest4⟩ := PRes.bind_eq_ok hrest3
          cases hrest4
          exact ⟨nm, ty, v, rfl⟩
        · simp only [hA, not_false_eq_true, if_true] at hrest2
          exact absurd hrest2 (by simp)
      all_goals exact absurd hrest2 (by simp)

/-- C4 amended witness: the line p = 1 headed by an identifier parses to
an assignment; the lines Int n1 = 1 and String n1 = 1 dispatch to the
declaration parser; a successful declaration parse is a typed
VariableDeclaration. -/
theorem statement_dispatch_amended_witness :
    ((∃ t v, (Statement.assignment (.identifier ("p")) (.integer 1)) = .assignment t v)
       ∨ (∃ e, (Statement.assignment (.identifier ("p")) (.integer 1)) = .expression e))
    ∧ statementP 20 pIntDecl = varOrCustomDecl 19 pIntDecl
    ∧ statementP 20 pStrDecl = varOrCustomDecl 19 pStrDecl
    ∧ (∃ nm t v, (Statement.variableDeclaration ("n1") Ty.int (.integer 1)) = .variableDeclaration nm t v) :=
  ⟨(statement_dispatch_amended 19 pAsg ("p") (Statement.assignment (.identifier ("p")) (.integer 1)) ⟨[.identifier ("p"), .assign, .integer 1, .eof], 3⟩).1 rfl rfl,
   (statement_dispatch_amended 19 pIntDecl ("q") (Statement.expression (.integer 0)) pIntDecl).2.1 rfl,
   (statement_dispatch_amended 19 pStrDecl ("q") (Statement.expression (.integer 0)) pStrDecl).2.2.1 rfl,
   (statement_dispatch_amended 19 pIntDecl ("q") (Statement.variableDeclaration ("n1") Ty.int (.integer 1)) ⟨[.intKw, .identifier ("n1"), .assign, .integer 1, .eof], 4⟩).2.2.2 rfl⟩

/-- C5: dividing two Integers with right operand 0 evaluates to the
DivisionByZero error as an error result (the zero test precedes the host
division), and any operand pairing that is not two Integers yields the
divide type error. -/
theorem divide_semantics (fuel : Nat) (s s1 s2 : Interpreter) (l r : Expression) (a : Int) (lv rv : Value)
    (hl : evalExpr fuel s l = .ok (.integer a) s1)
    (hr : evalExpr fuel s1 r = .ok (.integer 0) s2)
    (hnotint : ∀ p q : Int, ¬ (lv = .integer p ∧ rv = .integer q)) :
    evalExpr (fuel + 1) s (.binary l .divide r) = .err .divisionByZero s2
    ∧ divide_values (.integer a) (.integer 0) = .error .divisionByZero
    ∧ divide_values lv rv = .error (.divTypeError (Value.type_name lv) (Value.type_name rv)) := by
  refine ⟨?_, by simp [divide_values], ?_⟩
  · simp [evalExpr, hl, hr, Res.bind, divide_values]
  · cases lv <;> cases rv <;> first
      | (exact absurd ⟨rfl, rfl⟩ (hnotint _ _))
      | simp [divide_values, Value.type_name]

/-- C5 witness: ten divided by zero errors with DivisionByZero, and a
String left operand gives the divide type error. -/
theorem divide_semantics_witness :
    evalExpr 2 Interpreter.new (.binary (.integer 10) .divide (.integer 0)) = .err .divisionByZero Interpreter.new
    ∧ divide_values (.integer 10) (.integer 0) = .error .divisionByZero
    ∧ divide_values (.string ("a")) (.integer 1) = .error (.divTypeError (Value.type_name (.string ("a"))) (Value.type_name (.integer 1))) :=
  divide_semantics 1 Interpreter.new Interpreter.new Interpreter.new (.integer 10) (.integer 0) 10 (.string ("a")) (.integer 1) rfl rfl (fun p q h => nomatch h.1)

/-- C6: the claim says a failed declaration leaves the variable table
unchanged and in particular never binds the declared name.  Declaring
Int r = f(5), where the body of f(r:Int) errors with division by zero,
aborts the declaration, yet the leaked parameter frame leaves r bound to
Integer 5 in a table that was empty before the statement. -/
theorem declaration_error_leaves_leaked_binding :
    execStmt 6 c6State (.variableDeclaration ("r") .int (.functionCall ("f") [.integer 5])) = .err .divisionByZero (set_variables c6State [(("r"), Value.integer 5)])
    ∧ lookupS ([(("r"), Value.integer 5)] : List (String × Value)) ("r") = some (Value.integer 5)
    ∧ c6State.environment.vars = [] :=
  ⟨rfl, rfl, rfl⟩

/-- C7: a user-defined call whose bound body runs to completion without a
carried value returns the kind-appropriate zero value of the declared
return type, with the caller variable table restored. -/
theorem default_return_value (fuel : Nat) (s s1 s2 : Interpreter) (name : String)
    (args : List Expression) (ps : List Parameter) (rt : Ty) (body : List Statement)
    (hname : name ≠ ("print"))
    (hfn : lookupS s.environment.functions name = some (.function ps rt body))
    (harity : args.length = ps.length)
    (hbind : bindParams fuel s (ps.zip args) = .ok () s1)
    (hbody : execBlock fuel s1 body = .ok none s2) :
    evalExpr (fuel + 1) s (.functionCall name args) = .ok (default_value rt) (set_variables s2 s.environment.vars) := by
  simp [evalExpr, hname, hfn, harity, hbind, hbody]

/-- C7 witness: calling g, registered with Int return type and empty body,
returns Integer 0. -/
theorem default_return_value_witness :
    evalExpr 2 c7State (.functionCall ("g") []) = .ok (Value.integer 0) (set_variables c7State c7State.environment.vars) :=
  default_return_value 1 c7State c7State c7State ("g") [] [] .int [] (by decide) rfl rfl rfl rfl

/-- C8: a found method call errors with the method arity error exactly on
an argument-count mismatch, and when the arity matches the whole call
computation is invariant under replacing the declared parameter types by
any others with the same names, so no argument type is ever checked. -/
theorem method_call_arity_no_type_check (fuel : Nat) (s : Interpreter) (cn : String)
    (flds : List (String × Value)) (m : String) (mdef : Method) (args : List Expression)
    (qs : List Parameter) :
    (args.length ≠ mdef.parameters.length →
       callMethod (fuel + 1) s cn flds m mdef args = .err (.methodArityError m mdef.parameters.length args.length) s)
    ∧ (qs.map Parameter.name = mdef.parameters.map Parameter.name →
       callMethod (fuel + 1) s cn flds m mdef args
         = callMethod (fuel + 1) s cn flds m (Method.mk mdef.name qs mdef.return_type mdef.body) args) := by
  constructor
  · intro hna
    simp [callMethod, hna]
  · intro hnames
    have hlen : qs.length = mdef.parameters.length := by
      have := congrArg List.length hnames
      simpa using this
    simp only [callMethod, Method.parameters, Method.return_type, Method.body]
    cases mdef with
    | mk mn mps mrt mbody =>
      simp only [Method.parameters, Method.return_type, Method.body] at *
      by_cases hc : args.length ≠ mps.length
      · rw [if_pos hc, if_pos (by omega)]
        rw [hlen]
      · rw [if_neg hc, if_neg (by omega)]
        rw [bindNoCheck_names fuel _ mps qs args hnames.symm]

/-- C8 witness: calling inc with no argument gives the arity error, and
with one String argument the call computation is unchanged when the
declared Int parameter type is replaced by String. -/
theorem method_call_arity_no_type_check_witness :
    callMethod 1 Interpreter.new ("C") [] ("inc") c8Method [] = .err (.methodArityError ("inc") 1 0) Interpreter.new
    ∧ callMethod 1 Interpreter.new ("C") [] ("inc") c8Method [.string ("hi")]
        = callMethod 1 Interpreter.new ("C") [] ("inc") (Method.mk ("inc") [⟨("x"), Ty.string⟩] .int []) [.string ("hi")] :=
  ⟨(method_call_arity_no_type_check 0 Interpreter.new ("C") [] ("inc") c8Method [] [⟨("x"), Ty.string⟩]).1 (by decide),
   (method_call_arity_no_type_check 0 Interpreter.new ("C") [] ("inc") c8Method [.string ("hi")] [⟨("x"), Ty.string⟩]).2 rfl⟩

/-- C9: a call of print with one argument is handled by the built-in
before any function-table lookup, writing the rendered value and
returning the empty String, for every state, in particular states whose
functions table maps print to a user-defined function; and a def print
statement does register such a function without ever making it callable
by that name. -/
theorem print_builtin_shadow (fuel : Nat) (s s1 : Interpreter) (e : Expression) (v g : Value)
    (ps : List Parameter) (rt : Ty) (body : List Statement)
    (hreg : lookupS s.environment.functions ("print") = some g)
    (harg : evalExpr fuel s e = .ok v s1) :
    evalExpr (fuel + 1) s (.functionCall ("print") [e]) = .ok (.string ("")) (push_output s1 (Value.to_string v))
    ∧ execStmt (fuel + 1) s (.functionDefinition ("print") ps rt body) = .ok none { s with environment := s.environment.define_function ("print") (.function ps rt body) } := by
  constructor
  · simp [evalExpr, harg, Res.bind]
  · simp [execStmt]

/-- C9 witness: in a state where def print overwrote the functions entry,
print(7) still runs the built-in and writes 7. -/
theorem print_builtin_shadow_witness :
    evalExpr 2 c9State (.functionCall ("print") [.integer 7]) = .ok (.string ("")) (push_output c9State (Value.to_string (Value.integer 7)))
    ∧ execStmt 2 c9State (.functionDefinition ("print") [] .void []) = .ok none { c9State with environment := c9State.environment.define_function ("print") (.function [] .void []) } :=
  print_builtin_shadow 1 c9State c9State (.integer 7) (.integer 7) userPrintFun [] .void [] rfl rfl

/-- C10: an assignment to a bare identifier never checks for a prior
binding: whenever the right-hand side evaluates, the statement succeeds
and rebinds or freshly creates the name, so no UndefinedVariable error
can arise from the target. -/
theorem assignment_never_undefined (fuel : Nat) (s s1 : Interpreter) (x : String) (e : Expression) (v : Value)
    (h : evalExpr fuel s e = .ok v s1) :
    execStmt (fuel + 1) s (.assignment (.identifier x) e) = .ok none (define_variable s1 x v) := by
  simp [execStmt, h, Res.bind]

/-- C10 witness: assigning 1 to the never-declared name x in a fresh
interpreter succeeds and creates the binding. -/
theorem assignment_never_undefined_witness :
    execStmt 2 Interpreter.new (.assignment (.identifier ("x")) (.integer 1)) = .ok none (define_variable Interpreter.new ("x") (Value.integer 1)) :=
  assignment_never_undefined 1 Interpreter.new Interpreter.new ("x") (.integer 1) (.integer 1) rfl

end Exline
